import Mathlib

/-!
Verification of the KPI calculator with TEE attestation
(src/nautilus/kpi_calculator.rs).

Embedding conventions:
* JSON trees (serde_json::Value) are modelled by the inductive `Value`;
  objects are association lists, numbers are exact rationals (ℚ stands in
  for f64 on the exact paths; where a claim turns on f64 rounding itself,
  an explicit IEEE binary64 rounding model `fl64` is used, see the
  order-dependence analysis around `aggregateF64`).
* The external collaborators (serde_json parsing, the SHA-256 primitive,
  the Ed25519 signer, the wall clock) are abstracted as parameters:
  a `parse` function, a `TEEEnv` carrying the hash function and the clock
  reading, and a `Keypair` carrying the signing function and public key.
* Rust panics (unwrap / expect / assert) are modelled as `Option.none`.
-/

namespace Nautilus

/-- Model of serde_json::Value: null, booleans, numbers (as exact
rationals), strings, arrays and objects (association lists). -/
inductive Value : Type where
  | null : Value
  | bool : Bool → Value
  | num : ℚ → Value
  | str : String → Value
  | arr : List Value → Value
  | obj : List (String × Value) → Value

/-- Lookup of a key in an object, `Value::get` on a string key: first
matching field of an object, `none` on any other variant. -/
def Value.get (v : Value) (key : String) : Option Value :=
  match v with
  | .obj fields => lookupField fields
  | _ => none
where
  lookupField : List (String × Value) → Option Value
    | [] => none
    | (k, x) :: rest => if k = key then some x else lookupField rest

/-- Model of `Value::as_array`. -/
def Value.as_array : Value → Option (List Value)
  | .arr xs => some xs
  | _ => none

/-- Model of `Value::as_str`. -/
def Value.as_str : Value → Option String
  | .str s => some s
  | _ => none

/-- Model of `Value::as_f64`: numbers convert, everything else is `none`. -/
def Value.as_f64 : Value → Option ℚ
  | .num q => some q
  | _ => none

/-- Source `identify_file_type`: presence-based classification with
first-match precedence, exactly as the Rust function is written. -/
def identify_file_type (data : Value) : String :=
  if (data.get "journalEntryId").isSome then
    "JournalEntry"
  else
    match (data.get "assetList").bind Value.as_array with
    | some assetList =>
      match assetList with
      | first :: _ =>
        if (first.get "assetID").isSome then "FixedAssetsRegister"
        else restOfChecks data
      | [] => restOfChecks data
    | none => restOfChecks data
where
  restOfChecks (data : Value) : String :=
    if (data.get "employeeDetails").isSome then
      "PayrollExpense"
    else if ((data.get "reportTitle").bind Value.as_str)
        = some "Corporate Overhead Report" then
      "OverheadReport"
    else
      "Unknown"

/-- Loop body of the source `process_journal_entry`: scan `credits` in
order, stop at the first entry whose `account` is "Sales Revenue" and
return its `amount` (defaulting to 0 when missing or non-numeric). -/
def journalCreditsLoop : List Value → ℚ
  | [] => 0
  | credit :: rest =>
    if ((credit.get "account").bind Value.as_str) = some "Sales Revenue" then
      ((credit.get "amount").bind Value.as_f64).getD 0
    else
      journalCreditsLoop rest

/-- Source `process_journal_entry`. -/
def process_journal_entry (data : Value) : ℚ :=
  match (data.get "credits").bind Value.as_array with
  | some credits => journalCreditsLoop credits
  | none => 0

/-- Per-asset straight-line monthly depreciation from the body of the
source `process_fixed_assets` loop. -/
def assetMonthlyDep (asset : Value) : ℚ :=
  let cost := ((asset.get "originalCost").bind Value.as_f64).getD 0
  let residual := ((asset.get "residualValue").bind Value.as_f64).getD 0
  let life := ((asset.get "usefulLife_years").bind Value.as_f64).getD 1
  (cost - residual) / (life * 12)

/-- Source `process_fixed_assets`: accumulate the monthly depreciation of
every asset, then negate. -/
def process_fixed_assets (data : Value) : ℚ :=
  match (data.get "assetList").bind Value.as_array with
  | some list => -(list.foldl (fun total asset => total + assetMonthlyDep asset) 0)
  | none => -(0 : ℚ)

/-- Source `process_payroll`. -/
def process_payroll (data : Value) : ℚ :=
  -(((data.get "grossPay").bind Value.as_f64).getD 0)

/-- Source `process_overhead` (fixed 10 percent allocation factor). -/
def process_overhead (data : Value) : ℚ :=
  -((((data.get "totalOverheadCost").bind Value.as_f64).getD 0) * (1 / 10))

/-- The `match file_type.as_str()` dispatch shared by `calculate_kpi` and
`calculate_kpi_with_attestation`. -/
def changeFor (file_type : String) (data : Value) : ℚ :=
  if file_type = "JournalEntry" then process_journal_entry data
  else if file_type = "FixedAssetsRegister" then process_fixed_assets data
  else if file_type = "PayrollExpense" then process_payroll data
  else if file_type = "OverheadReport" then process_overhead data
  else 0

/-- Delta contributed by one document: classify, then dispatch. -/
def docChange (data : Value) : ℚ :=
  changeFor (identify_file_type data) data

/-- Model of `u64::to_le_bytes`: the 8 little-endian base-256 digits. -/
def u64ToLeBytes (n : ℕ) : List ℕ :=
  (List.range 8).map (fun i => n / 256 ^ i % 256)

/-- Model of Rust `f64::round`: round half away from zero, to an integer. -/
def rustRound (q : ℚ) : ℤ :=
  if 0 ≤ q then ⌊q + 1 / 2⌋ else ⌈q - 1 / 2⌉

/-- Model of the Rust `as u64` cast on a rounded float: saturating, so
negative values clamp to 0 and values above the maximum clamp to it. -/
def rustCastU64 (z : ℤ) : ℕ :=
  if z < 0 then 0 else min z.toNat (2 ^ 64 - 1)

/-- The saturating cast always lands inside the u64 range. -/
theorem rustCastU64_lt (z : ℤ) : rustCastU64 z < 2 ^ 64 := by
  unfold rustCastU64
  split
  · positivity
  · have : min z.toNat (2 ^ 64 - 1) ≤ 2 ^ 64 - 1 := Nat.min_le_right _ _
    omega

/-- Model of the source struct `KPIResult`. -/
structure KPIResult : Type where
  kpi : ℚ
  change : ℚ
  file_type : String

/-- Model of the source struct `TEEAttestation`; the width constraints the
Rust types `u64`, `[u8; 32]` and `[u8; 64]` impose are carried as fields. -/
structure TEEAttestation : Type where
  kpi_value : ℕ
  computation_hash : List ℕ
  timestamp : ℕ
  tee_public_key : List ℕ
  signature : List ℕ
  kpi_value_lt : kpi_value < 2 ^ 64
  timestamp_lt : timestamp < 2 ^ 64
  hash_len : computation_hash.length = 32
  pk_len : tee_public_key.length = 32
  sig_len : signature.length = 64

/-- Byte concatenation built by `TEEAttestation::to_bytes` before its
length assertion. -/
def TEEAttestation.rawBytes (a : TEEAttestation) : List ℕ :=
  u64ToLeBytes a.kpi_value ++ a.computation_hash ++ u64ToLeBytes a.timestamp
    ++ a.tee_public_key ++ a.signature

/-- Source `TEEAttestation::to_bytes`: the `assert_eq!(bytes.len(), 144)`
panic is modelled as `none`. -/
def TEEAttestation.to_bytes (a : TEEAttestation) : Option (List ℕ) :=
  if a.rawBytes.length = 144 then some a.rawBytes else none

/-- Model of the source struct `KPIResultWithAttestation`. -/
structure KPIResultWithAttestation : Type where
  kpi_result : KPIResult
  attestation : TEEAttestation
  attestation_bytes : List ℕ

/-- Abstraction of the external ed25519_dalek `Keypair`: a deterministic
signing function producing 64 bytes and a 32-byte public key. -/
structure Keypair : Type where
  sign : List ℕ → List ℕ
  public : List ℕ
  sign_len : ∀ m, (sign m).length = 64
  public_len : public.length = 32

/-- Abstraction of the remaining external collaborators of
`calculate_kpi_with_attestation`: the SHA-256 primitive (any function
producing 32 bytes) and the wall-clock reading in milliseconds. -/
structure TEEEnv : Type where
  sha256 : String → List ℕ
  sha256_len : ∀ s, (sha256 s).length = 32
  now_ms : ℕ

/-- Source `calculate_kpi` (single document, caller-supplied running
total); `parse` abstracts `serde_json::from_str` and the `.unwrap()` panic
on a parse failure is modelled as `none`. -/
def calculate_kpi (parse : String → Option Value) (json_str : String)
    (current_kpi : ℚ) : Option KPIResult :=
  match parse json_str with
  | none => none
  | some data =>
    let file_type := identify_file_type data
    let change := changeFor file_type data
    some { kpi := current_kpi + change, change := change, file_type := file_type }

/-- The aggregation loop of `calculate_kpi_with_attestation`: fold the
per-document change into the cumulative KPI while tracking the
classification of the most recently processed document. -/
def aggregate (documents : List Value) : ℚ × String :=
  documents.foldl
    (fun acc document =>
      let file_type := identify_file_type document
      (acc.1 + changeFor file_type document, file_type))
    ((0 : ℚ), "Unknown")

/-- Source `calculate_kpi_with_attestation`; `parse` abstracts
`serde_json::from_str` on an array (the `.expect` panic is `none`) and
`env` supplies the hash primitive and the clock. -/
def calculate_kpi_with_attestation (parse : String → Option (List Value))
    (env : TEEEnv) (documents_json : String) (tee_keypair : Keypair) :
    Option KPIResultWithAttestation :=
  match parse documents_json with
  | none => none
  | some documents =>
    let agg := aggregate documents
    let cumulative_kpi := agg.1
    let last_file_type := agg.2
    let computation_hash := env.sha256 documents_json
    let timestamp := env.now_ms % 2 ^ 64
    let kpi_value_u64 := rustCastU64 (rustRound (cumulative_kpi * 1000))
    let message := u64ToLeBytes kpi_value_u64 ++ computation_hash
      ++ u64ToLeBytes timestamp
    let signature_bytes := tee_keypair.sign message
    let public_key_bytes := tee_keypair.public
    let attestation : TEEAttestation :=
      { kpi_value := kpi_value_u64
        computation_hash := computation_hash
        timestamp := timestamp
        tee_public_key := public_key_bytes
        signature := signature_bytes
        kpi_value_lt := rustCastU64_lt _
        timestamp_lt := Nat.mod_lt _ (by positivity)
        hash_len := env.sha256_len documents_json
        pk_len := tee_keypair.public_len
        sig_len := tee_keypair.sign_len message }
    match attestation.to_bytes with
    | none => none
    | some attestation_bytes =>
      some { kpi_result :=
               { kpi := cumulative_kpi
                 change := cumulative_kpi
                 file_type := last_file_type }
             attestation := attestation
             attestation_bytes := attestation_bytes }

/-- Explicit attestation produced on a successfully parsed batch. -/
def attOf (env : TEEEnv) (s : String) (kp : Keypair) (documents : List Value) :
    TEEAttestation :=
  { kpi_value := rustCastU64 (rustRound ((aggregate documents).1 * 1000))
    computation_hash := env.sha256 s
    timestamp := env.now_ms % 2 ^ 64
    tee_public_key := kp.public
    signature := kp.sign
      (u64ToLeBytes (rustCastU64 (rustRound ((aggregate documents).1 * 1000)))
        ++ env.sha256 s ++ u64ToLeBytes (env.now_ms % 2 ^ 64))
    kpi_value_lt := rustCastU64_lt _
    timestamp_lt := Nat.mod_lt _ (by positivity)
    hash_len := env.sha256_len s
    pk_len := kp.public_len
    sig_len := kp.sign_len _ }

/-- Explicit overall result produced on a successfully parsed batch. -/
def resultOf (env : TEEEnv) (s : String) (kp : Keypair) (documents : List Value) :
    KPIResultWithAttestation :=
  { kpi_result :=
      { kpi := (aggregate documents).1
        change := (aggregate documents).1
        file_type := (aggregate documents).2 }
    attestation := attOf env s kp documents
    attestation_bytes := (attOf env s kp documents).rawBytes }

/-- Every little-endian u64 encoding has 8 bytes. -/
theorem u64ToLeBytes_length (n : ℕ) : (u64ToLeBytes n).length = 8 := by
  simp [u64ToLeBytes]

/-- The attestation byte concatenation always has 144 bytes. -/
theorem TEEAttestation.rawBytes_length (a : TEEAttestation) :
    a.rawBytes.length = 144 := by
  simp [TEEAttestation.rawBytes, u64ToLeBytes_length, a.hash_len, a.pk_len,
    a.sig_len]

/-- The length assertion in `to_bytes` never fires. -/
theorem TEEAttestation.to_bytes_eq (a : TEEAttestation) :
    a.to_bytes = some a.rawBytes := by
  simp [TEEAttestation.to_bytes, a.rawBytes_length]

/-- Characterization of `calculate_kpi_with_attestation` on an input that
parses: it returns exactly the explicit result. -/
theorem calc_att_eq (parse : String → Option (List Value)) (env : TEEEnv)
    (s : String) (kp : Keypair) (documents : List Value)
    (h : parse s = some documents) :
    calculate_kpi_with_attestation parse env s kp
      = some (resultOf env s kp documents) := by
  unfold calculate_kpi_with_attestation
  rw [h]
  simp only [TEEAttestation.to_bytes_eq]
  rfl

/-- The aggregation fold computes the running sum of per-document changes
together with the classification of the last document seen. -/
theorem foldl_aggregate (documents : List Value) (c : ℚ) (ft : String) :
    documents.foldl
      (fun acc document =>
        let file_type := identify_file_type document
        (acc.1 + changeFor file_type document, file_type)) (c, ft)
    = (c + (documents.map docChange).sum,
       (documents.map identify_file_type).getLastD ft) := by
  induction documents generalizing c ft with
  | nil => simp
  | cons d rest ih =>
      simp only [List.foldl_cons, List.map_cons, List.sum_cons,
        List.getLastD_cons, ih]
      simp [docChange, add_assoc]

/-- Closed form of `aggregate`. -/
theorem aggregate_eq (documents : List Value) :
    aggregate documents
    = ((documents.map docChange).sum,
       (documents.map identify_file_type).getLastD "Unknown") := by
  simpa [aggregate] using foldl_aggregate documents 0 "Unknown"

/-- Folding addition of a mapped value is addition of the mapped sum. -/
theorem foldl_add_map_sum (f : Value → ℚ) (l : List Value) (c : ℚ) :
    l.foldl (fun total asset => total + f asset) c = c + (l.map f).sum := by
  induction l generalizing c with
  | nil => simp
  | cons a rest ih => simp [ih, add_assoc]

/-- Rounding a negative value half away from zero never exceeds zero. -/
theorem rustRound_nonpos (q : ℚ) (h : q < 0) : rustRound q ≤ 0 := by
  unfold rustRound
  rw [if_neg (not_le.mpr h)]
  have hq : q - 1 / 2 ≤ 0 := by linarith
  calc ⌈q - 1 / 2⌉ ≤ ⌈(0 : ℚ)⌉ := Int.ceil_le_ceil hq
  _ = 0 := by simp

/-- The saturating cast clamps every nonpositive integer to zero. -/
theorem rustCastU64_of_nonpos (z : ℤ) (h : z ≤ 0) : rustCastU64 z = 0 := by
  unfold rustCastU64
  split
  · rfl
  · have hz : z = 0 := by omega
    simp [hz]

/-- Spec-side classification, written from the spec's precedence list
(§4.1), to be compared with the source `identify_file_type`. -/
def classifySpec (d : Value) : String :=
  if (d.get "journalEntryId").isSome then "JournalEntry"
  else if (match (d.get "assetList").bind Value.as_array with
           | some (first :: _) => (first.get "assetID").isSome
           | _ => false) then "FixedAssetsRegister"
  else if (d.get "employeeDetails").isSome then "PayrollExpense"
  else if ((d.get "reportTitle").bind Value.as_str)
      = some "Corporate Overhead Report" then "OverheadReport"
  else "Unknown"

/-- Spec-side JournalEntry rule, written from the spec's words (§4.2):
first credit whose account equals "Sales Revenue", located via find. -/
def journalSpec (d : Value) : ℚ :=
  match (d.get "credits").bind Value.as_array with
  | none => 0
  | some credits =>
    match credits.find?
        (fun c => decide
          (((c.get "account").bind Value.as_str) = some "Sales Revenue")) with
    | none => 0
    | some c => ((c.get "amount").bind Value.as_f64).getD 0

/-- Spec-side per-asset monthly depreciation, written from the spec's
words (§4.2): (originalCost − residualValue) / (usefulLife_years × 12),
defaulting originalCost and residualValue to 0 and usefulLife_years to 1. -/
def assetDepSpec (asset : Value) : ℚ :=
  (((asset.get "originalCost").bind Value.as_f64).getD 0
    - ((asset.get "residualValue").bind Value.as_f64).getD 0)
  / (((asset.get "usefulLife_years").bind Value.as_f64).getD 1 * 12)

/-- Spec-side FixedAssetsRegister rule (§4.2): sum the per-asset monthly
depreciation across all assets, then negate. -/
def fixedAssetsSpec (d : Value) : ℚ :=
  match (d.get "assetList").bind Value.as_array with
  | none => 0
  | some list => -((list.map assetDepSpec).sum)

/-- The JournalEntry document of the repository's end-to-end test
(+50000 of Sales Revenue). -/
def journalDoc : Value :=
  .obj [("journalEntryId", .str "JE-2025-001"),
        ("credits", .arr [.obj [("account", .str "Sales Revenue"),
                                ("amount", .num 50000)]])]

/-- The PayrollExpense document of the repository's end-to-end test
(grossPay 20000, so delta −20000). -/
def payrollDoc : Value :=
  .obj [("employeeDetails", .obj []), ("grossPay", .num 20000)]

/-- A document carrying both `journalEntryId` and `employeeDetails`. -/
def bothFieldsDoc : Value :=
  .obj [("journalEntryId", .str "JE-1"), ("employeeDetails", .obj [])]

/-- A journal document whose first "Sales Revenue" credit has a
non-numeric amount while a later matching credit has a numeric one. -/
def journalEdgeDoc : Value :=
  .obj [("journalEntryId", .str "JE-2"),
        ("credits", .arr
          [.obj [("account", .str "Sales Revenue"), ("amount", .str "n/a")],
           .obj [("account", .str "Sales Revenue"), ("amount", .num 5)]])]

/-- A fixed-assets document whose single asset omits `usefulLife_years`
(originalCost 2400, so monthly depreciation 200 and delta −200). -/
def noLifeAssetDoc : Value :=
  .obj [("assetList", .arr [.obj [("assetID", .str "A-1"),
                                  ("originalCost", .num 2400)]])]

/-- A concrete instantiation of the abstract signer, for closed runs. -/
def testKeypair : Keypair :=
  { sign := fun _ => List.replicate 64 0
    public := List.replicate 32 1
    sign_len := fun _ => List.length_replicate 64 0
    public_len := List.length_replicate 32 1 }

/-- A concrete instantiation of the hash-and-clock environment, for
closed runs. -/
def testEnv : TEEEnv :=
  { sha256 := fun _ => List.replicate 32 2
    sha256_len := fun _ => List.length_replicate 32 2
    now_ms := 1758000000000 }

/-- Validity of a signature in the abstract signer model: Ed25519 is
deterministic, so a signature is valid under the keypair's public key
exactly when it is that keypair's signature of the message. -/
def SignatureValidUnder (kp : Keypair) (pk message sig : List ℕ) : Prop :=
  pk = kp.public ∧ sig = kp.sign message

/-- Helper: the tail of the attestation bytes after the 8 kpi bytes. -/
theorem rawBytes_drop8 (a : TEEAttestation) :
    a.rawBytes.drop 8
      = a.computation_hash ++ (u64ToLeBytes a.timestamp
          ++ (a.tee_public_key ++ a.signature)) := by
  unfold TEEAttestation.rawBytes
  simp only [List.append_assoc]
  exact List.drop_left' (u64ToLeBytes_length _)

/-- Helper: the tail of the attestation bytes after offset 40. -/
theorem rawBytes_drop40 (a : TEEAttestation) :
    a.rawBytes.drop 40
      = u64ToLeBytes a.timestamp ++ (a.tee_public_key ++ a.signature) := by
  have h : a.rawBytes.drop 40 = (a.rawBytes.drop 8).drop 32 := by
    rw [List.drop_drop]
  rw [h, rawBytes_drop8, List.drop_left' a.hash_len]

/-- Helper: the tail of the attestation bytes after offset 48. -/
theorem rawBytes_drop48 (a : TEEAttestation) :
    a.rawBytes.drop 48 = a.tee_public_key ++ a.signature := by
  have h : a.rawBytes.drop 48 = (a.rawBytes.drop 40).drop 8 := by
    rw [List.drop_drop]
  rw [h, rawBytes_drop40, List.drop_left' (u64ToLeBytes_length _)]

/-- C1: `TEEAttestation::to_bytes` returns exactly 144 bytes with
`kpi_value` as 8 little-endian bytes at offset 0, `computation_hash` at
offset 8, `timestamp` as 8 little-endian bytes at offset 40,
`tee_public_key` at offset 48 and `signature` at offset 80; the length
check is a fatal assertion (modelled as the `Option` guard of `to_bytes`)
and it never fires. -/
theorem C1_to_bytes_layout (a : TEEAttestation) :
    a.to_bytes = some a.rawBytes ∧
    a.rawBytes.length = 144 ∧
    a.rawBytes.take 8 = u64ToLeBytes a.kpi_value ∧
    (a.rawBytes.drop 8).take 32 = a.computation_hash ∧
    (a.rawBytes.drop 40).take 8 = u64ToLeBytes a.timestamp ∧
    (a.rawBytes.drop 48).take 32 = a.tee_public_key ∧
    a.rawBytes.drop 80 = a.signature := by
  refine ⟨a.to_bytes_eq, a.rawBytes_length, ?_, ?_, ?_, ?_, ?_⟩
  · unfold TEEAttestation.rawBytes
    simp only [List.append_assoc]
    exact List.take_left' (u64ToLeBytes_length _)
  · rw [rawBytes_drop8]
    exact List.take_left' a.hash_len
  · rw [rawBytes_drop40]
    exact List.take_left' (u64ToLeBytes_length _)
  · rw [rawBytes_drop48]
    exact List.take_left' a.pk_len
  · have h : a.rawBytes.drop 80 = (a.rawBytes.drop 48).drop 32 := by
      rw [List.drop_drop]
    rw [h, rawBytes_drop48, List.drop_left' a.pk_len]

/-- Helper: the source classifier agrees with the spec's precedence list. -/
theorem identify_eq_classifySpec (d : Value) :
    identify_file_type d = classifySpec d := by
  unfold identify_file_type classifySpec
  by_cases hj : (d.get "journalEntryId").isSome
  · simp [hj]
  · simp only [hj, Bool.false_eq_true, if_false]
    cases h : (d.get "assetList").bind Value.as_array with
    | none => simp [h, identify_file_type.restOfChecks]
    | some l =>
      cases l with
      | nil => simp [h, identify_file_type.restOfChecks]
      | cons first rest =>
        by_cases hb : (first.get "assetID").isSome
        · simp [h, hb]
        · simp [h, hb, identify_file_type.restOfChecks]

/-- Helper: the spec classifier only ever produces the five tags. -/
theorem classifySpec_mem (d : Value) :
    classifySpec d ∈ ["JournalEntry", "FixedAssetsRegister", "PayrollExpense",
      "OverheadReport", "Unknown"] := by
  unfold classifySpec
  split
  · simp
  · split
    · simp
    · split
      · simp
      · split <;> simp

/-- C4: classification returns exactly one of the five tags, follows the
spec's fixed precedence order with first match winning (stated as
agreement with the spec-side `classifySpec`), classifies a document with
both `journalEntryId` and `employeeDetails` as JournalEntry, and never
fails (it is a total function). -/
theorem C4_classification (d : Value) :
    identify_file_type d = classifySpec d ∧
    identify_file_type d ∈ ["JournalEntry", "FixedAssetsRegister",
      "PayrollExpense", "OverheadReport", "Unknown"] ∧
    identify_file_type bothFieldsDoc = "JournalEntry" := by
  refine ⟨identify_eq_classifySpec d, ?_, by decide⟩
  rw [identify_eq_classifySpec d]
  exact classifySpec_mem d

/-- Helper: the credits loop of the source equals a first-match lookup. -/
theorem journalCreditsLoop_eq_find (credits : List Value) :
    journalCreditsLoop credits
      = (match credits.find?
            (fun c => decide
              (((c.get "account").bind Value.as_str) = some "Sales Revenue"))
          with
         | none => 0
         | some c => ((c.get "amount").bind Value.as_f64).getD 0) := by
  induction credits with
  | nil => rfl
  | cons c rest ih =>
    by_cases hc : ((c.get "account").bind Value.as_str) = some "Sales Revenue"
    · simp [journalCreditsLoop, hc, List.find?_cons_of_pos]
    · rw [List.find?_cons_of_neg _ (by simpa using hc)] at *
      simpa [journalCreditsLoop, hc] using ih

/-- C7: for a JournalEntry document the delta is the amount of the first
credit whose account is exactly "Sales Revenue" (defaulting to 0 when
that first match has a missing or non-numeric amount, even if a later
match is numeric), and 0 when nothing matches or `credits` is absent or
not an array — stated as agreement with the spec-side `journalSpec`,
plus the first-match edge case on a concrete document. -/
theorem C7_journal_entry (d : Value) :
    process_journal_entry d = journalSpec d ∧
    process_journal_entry journalEdgeDoc = 0 := by
  constructor
  · unfold process_journal_entry journalSpec
    cases h : (d.get "credits").bind Value.as_array with
    | none => simp
    | some credits => simpa using journalCreditsLoop_eq_find credits
  · decide

/-- C8: for a FixedAssetsRegister document the delta is the negation of
the summed per-asset straight-line monthly depreciation with the spec's
defaults — stated as agreement with the spec-side `fixedAssetsSpec` —
and a concrete asset without `usefulLife_years` uses divisor 12 (delta
−2400/12 = −200), with no division by zero. -/
theorem C8_fixed_assets (d : Value) :
    process_fixed_assets d = fixedAssetsSpec d ∧
    process_fixed_assets noLifeAssetDoc = -200 := by
  constructor
  · unfold process_fixed_assets fixedAssetsSpec
    cases h : (d.get "assetList").bind Value.as_array with
    | none => simp
    | some l =>
      have hfun : assetMonthlyDep = assetDepSpec := by
        funext a
        simp [assetMonthlyDep, assetDepSpec]
      simp [foldl_add_map_sum, hfun]
  · simp +decide [process_fixed_assets, assetMonthlyDep, noLifeAssetDoc,
      Value.get, Value.get.lookupField, Value.as_array, Value.as_f64]
    norm_num

/-- Helper: the delta of the test JournalEntry document is +50000. -/
theorem docChange_journalDoc : docChange journalDoc = 50000 := by
  simp +decide [docChange, changeFor, identify_file_type,
    identify_file_type.restOfChecks, process_journal_entry,
    journalCreditsLoop, journalDoc, Value.get, Value.get.lookupField,
    Value.as_array, Value.as_str, Value.as_f64]

/-- Helper: the delta of the test PayrollExpense document is −20000. -/
theorem docChange_payrollDoc : docChange payrollDoc = -20000 := by
  simp +decide [docChange, changeFor, identify_file_type,
    identify_file_type.restOfChecks, process_payroll, payrollDoc,
    Value.get, Value.get.lookupField, Value.as_array, Value.as_str,
    Value.as_f64]

/-- Helper: classifications of the two test documents. -/
theorem identify_testDocs :
    identify_file_type journalDoc = "JournalEntry"
      ∧ identify_file_type payrollDoc = "PayrollExpense" := by decide

/-- Helper: a successful run determines the result record. -/
theorem result_of_some (parse : String → Option (List Value)) (env : TEEEnv)
    (s : String) (kp : Keypair) (documents : List Value)
    (r : KPIResultWithAttestation) (hp : parse s = some documents)
    (h : calculate_kpi_with_attestation parse env s kp = some r) :
    r = resultOf env s kp documents := by
  rw [calc_att_eq parse env s kp documents hp] at h
  exact (Option.some.inj h).symm

/-- C2: every attestation returned on a parsed batch carries a signature
that is valid under `tee_public_key` (in the abstract deterministic
Ed25519 model `SignatureValidUnder`) over the canonical 48-byte message
kpi_value (8 bytes LE) ++ computation_hash (32 bytes) ++ timestamp
(8 bytes LE), in that order. -/
theorem C2_attestation_signature (parse : String → Option (List Value))
    (env : TEEEnv) (s : String) (kp : Keypair) (documents : List Value)
    (r : KPIResultWithAttestation) (hp : parse s = some documents)
    (h : calculate_kpi_with_attestation parse env s kp = some r) :
    ∃ message : List ℕ,
      message = u64ToLeBytes r.attestation.kpi_value
          ++ r.attestation.computation_hash
          ++ u64ToLeBytes r.attestation.timestamp ∧
      message.length = 48 ∧
      SignatureValidUnder kp r.attestation.tee_public_key message
        r.attestation.signature := by
  obtain rfl := result_of_some parse env s kp documents r hp h
  refine ⟨_, rfl, ?_, rfl, rfl⟩
  simp [List.length_append, u64ToLeBytes_length]
  have := env.sha256_len s
  show 8 + ((env.sha256 s).length + 8) = 48
  omega

/-- C3: the attestation's `kpi_value` is the cumulative KPI times 1000,
rounded half away from zero and converted by the saturating Rust `as u64`
cast; in particular a cumulative KPI of 30000 quantizes to 30000000 and
1234.5675 quantizes to 1234568 (round half up at the third decimal). -/
theorem C3_quantization (parse : String → Option (List Value))
    (env : TEEEnv) (s : String) (kp : Keypair) (documents : List Value)
    (r : KPIResultWithAttestation) (hp : parse s = some documents)
    (h : calculate_kpi_with_attestation parse env s kp = some r) :
    r.attestation.kpi_value
      = rustCastU64 (rustRound ((documents.map docChange).sum * 1000)) ∧
    rustCastU64 (rustRound ((30000 : ℚ) * 1000)) = 30000000 ∧
    rustCastU64 (rustRound ((12345675 / 10000 : ℚ) * 1000)) = 1234568 := by
  obtain rfl := result_of_some parse env s kp documents r hp h
  refine ⟨?_, ?_, ?_⟩
  · show rustCastU64 (rustRound ((aggregate documents).1 * 1000)) = _
    rw [aggregate_eq]
  · norm_num [rustCastU64, rustRound]
    decide
  · norm_num [rustCastU64, rustRound]
    decide

/-- C5: on every parsed batch, both `kpi` and `change` of the result equal
the cumulative sum of the per-document deltas (the whole batch's total),
and `file_type` is the classification of the last-processed document
("Unknown" for an empty batch). -/
theorem C5_cumulative_result (parse : String → Option (List Value))
    (env : TEEEnv) (s : String) (kp : Keypair) (documents : List Value)
    (r : KPIResultWithAttestation) (hp : parse s = some documents)
    (h : calculate_kpi_with_attestation parse env s kp = some r) :
    r.kpi_result.kpi = (documents.map docChange).sum ∧
    r.kpi_result.change = (documents.map docChange).sum ∧
    r.kpi_result.file_type
      = (documents.map identify_file_type).getLastD "Unknown" := by
  obtain rfl := result_of_some parse env s kp documents r hp h
  refine ⟨?_, ?_, ?_⟩
  · show (aggregate documents).1 = _
    rw [aggregate_eq]
  · show (aggregate documents).1 = _
    rw [aggregate_eq]
  · show (aggregate documents).2 = _
    rw [aggregate_eq]

/-- Round a rational to the nearest integer, ties to even: the IEEE 754
default rounding used by every Rust f64 operation. -/
def roundTiesToEven (q : ℚ) : ℤ :=
  if q - ⌊q⌋ < 1 / 2 then ⌊q⌋
  else if 1 / 2 < q - ⌊q⌋ then ⌊q⌋ + 1
  else if ⌊q⌋ % 2 = 0 then ⌊q⌋ else ⌊q⌋ + 1

/-- IEEE binary64 rounding of an exact rational: round to the nearest
multiple of 2^(⌊log2 |q|⌋ − 52) with ties to even, which is the nearest
double with a 53-bit significand. The exponent range is unbounded here,
so this is faithful for magnitudes clear of overflow and subnormals —
which covers every value arising in the batches below. -/
def fl64 (q : ℚ) : ℚ :=
  if q = 0 then 0
  else roundTiesToEven (q / 2 ^ (Int.log 2 |q| - 52))
    * 2 ^ (Int.log 2 |q| - 52)

/-- Binary64 addition: the exact sum, then binary64 rounding. -/
def addF64 (a b : ℚ) : ℚ := fl64 (a + b)

/-- The aggregation fold of the source (lines 188–203) under binary64
addition: each `cumulative_kpi += change` rounds the running f64 sum.
Per-document deltas enter exactly, faithful whenever the delta
computation itself incurs no f64 rounding — true of every document used
below (journal amounts returned verbatim, payroll negation exact). -/
def aggregateF64 (documents : List Value) : ℚ × String :=
  documents.foldl
    (fun acc document =>
      let file_type := identify_file_type document
      (addF64 acc.1 (changeFor file_type document), file_type))
    ((0 : ℚ), "Unknown")

/-- A JournalEntry contributing +1e16 (exactly representable in f64). -/
def bigDoc : Value :=
  .obj [("journalEntryId", .str "JE-big"),
        ("credits", .arr [.obj [("account", .str "Sales Revenue"),
                                ("amount", .num 10000000000000000)]])]

/-- A JournalEntry contributing +1. -/
def oneDoc : Value :=
  .obj [("journalEntryId", .str "JE-one"),
        ("credits", .arr [.obj [("account", .str "Sales Revenue"),
                                ("amount", .num 1)]])]

/-- A PayrollExpense contributing −1e16 (exactly representable in f64). -/
def negDoc : Value :=
  .obj [("employeeDetails", .obj []), ("grossPay", .num 10000000000000000)]

/-- Helper: rounding an integer value changes nothing. -/
theorem roundTiesToEven_intCast (n : ℤ) : roundTiesToEven (n : ℚ) = n := by
  unfold roundTiesToEven
  norm_num [Int.floor_intCast]

/-- Helper: an exact half rounds to the even neighbor. -/
theorem roundTiesToEven_add_half_even (f : ℤ) (hf : f % 2 = 0) :
    roundTiesToEven ((f : ℚ) + 1 / 2) = f := by
  have hfl : ⌊(f : ℚ) + 1 / 2⌋ = f := by
    refine Int.floor_eq_iff.mpr ⟨by norm_num, by norm_num⟩
  unfold roundTiesToEven
  rw [hfl]
  have hr : (f : ℚ) + 1 / 2 - (f : ℚ) = 1 / 2 := by ring
  rw [hr]
  norm_num [hf]

/-- Helper: the binade of a nonzero value determines the rounding grid. -/
theorem fl64_of_bounds (q : ℚ) (k : ℕ) (e : ℤ) (he : e = (k : ℤ) - 52)
    (h0 : q ≠ 0) (h1 : (2 : ℚ) ^ k ≤ |q|) (h2 : |q| < 2 ^ (k + 1)) :
    fl64 q = roundTiesToEven (q / 2 ^ e) * 2 ^ e := by
  have habs : 0 < |q| := abs_pos.mpr h0
  have hlog : Int.log 2 |q| = (k : ℤ) := by
    have hle : (k : ℤ) ≤ Int.log 2 |q| := by
      rw [← Int.zpow_le_iff_le_log one_lt_two habs]
      push_cast
      rw [zpow_natCast]
      exact_mod_cast h1
    have hlt : Int.log 2 |q| < (k : ℤ) + 1 := by
      rw [← Int.lt_zpow_iff_log_lt one_lt_two habs]
      push_cast
      rw [show ((k : ℤ) + 1) = ((k + 1 : ℕ) : ℤ) by push_cast; ring,
        zpow_natCast]
      exact_mod_cast h2
    omega
  unfold fl64
  rw [if_neg h0, hlog, ← he]

/-- Helper: dividing by 2^(k − 52) multiplies by 2^52 and divides by 2^k. -/
theorem div_zpow_eq (q x : ℚ) (k : ℕ) (e : ℤ) (he : e = (k : ℤ) - 52)
    (h : q * 2 ^ 52 = x * 2 ^ k) : q / 2 ^ e = x := by
  have h2e : (2 : ℚ) ^ e ≠ 0 := zpow_ne_zero _ two_ne_zero
  rw [div_eq_iff h2e, he, zpow_sub₀ (two_ne_zero : (2 : ℚ) ≠ 0),
    show ((2 : ℚ)) ^ ((k : ℤ)) = 2 ^ k from zpow_natCast 2 k,
    show ((2 : ℚ)) ^ ((52 : ℤ)) = 2 ^ (52 : ℕ) from zpow_natCast 2 52]
  have h52 : ((2 : ℚ)) ^ (52 : ℕ) ≠ 0 := by positivity
  field_simp
  linarith [h]

/-- Helper: binary64 rounding fixes values already on the grid. -/
theorem fl64_fix (q : ℚ) (n : ℤ) (k : ℕ) (e : ℤ) (he : e = (k : ℤ) - 52)
    (h0 : q ≠ 0) (hn : q * 2 ^ 52 = (n : ℚ) * 2 ^ k)
    (h1 : (2 : ℚ) ^ k ≤ |q|) (h2 : |q| < 2 ^ (k + 1)) :
    fl64 q = q := by
  rw [fl64_of_bounds q k e he h0 h1 h2, div_zpow_eq q (n : ℚ) k e he hn,
    roundTiesToEven_intCast]
  have h2e : (2 : ℚ) ^ e ≠ 0 := zpow_ne_zero _ two_ne_zero
  have := div_zpow_eq q (n : ℚ) k e he hn
  field_simp at this
  linarith [this]

/-- Helper: binary64 rounding sends a tie to the even neighbor. -/
theorem fl64_tie_even (q : ℚ) (f : ℤ) (k : ℕ) (e : ℤ)
    (he : e = (k : ℤ) - 52) (h0 : q ≠ 0) (hf : f % 2 = 0)
    (hq : q * 2 ^ 52 = ((f : ℚ) + 1 / 2) * 2 ^ k)
    (h1 : (2 : ℚ) ^ k ≤ |q|) (h2 : |q| < 2 ^ (k + 1)) :
    fl64 q = (f : ℚ) * 2 ^ e := by
  rw [fl64_of_bounds q k e he h0 h1 h2,
    div_zpow_eq q ((f : ℚ) + 1 / 2) k e he hq,
    roundTiesToEven_add_half_even f hf]

/-- Helper: fl64 fixes 0. -/
theorem fl64_zero : fl64 0 = 0 := by
  simp [fl64]

/-- Helper: fl64 fixes 1. -/
theorem fl64_one : fl64 1 = 1 :=
  fl64_fix 1 4503599627370496 0 (-52) (by norm_num) (by norm_num)
    (by push_cast; norm_num) (by norm_num) (by norm_num)

/-- Helper: fl64 fixes 1e16. -/
theorem fl64_1e16 : fl64 10000000000000000 = 10000000000000000 :=
  fl64_fix 10000000000000000 5000000000000000 53 1 (by norm_num)
    (by norm_num) (by push_cast; norm_num) (by norm_num) (by norm_num)

/-- Helper: 1e16 + 1 lies exactly halfway between the doubles 1e16 and
1e16 + 2, and the tie goes to the even significand: 1e16. -/
theorem fl64_1e16_add_1 : fl64 (10000000000000000 + 1) = 10000000000000000 := by
  have h := fl64_tie_even (10000000000000000 + 1) 5000000000000000 53 1
    (by norm_num) (by norm_num) (by decide)
    (by push_cast; norm_num) (by norm_num) (by norm_num)
  rw [h]
  norm_num [zpow_one]

/-- Helper: fl64 fixes 50000. -/
theorem fl64_50000 : fl64 50000 = 50000 :=
  fl64_fix 50000 6871947673600000 15 (-37) (by norm_num) (by norm_num)
    (by push_cast; norm_num) (by norm_num) (by norm_num)

/-- Helper: fl64 fixes 30000. -/
theorem fl64_30000 : fl64 30000 = 30000 :=
  fl64_fix 30000 8246337208320000 14 (-38) (by norm_num) (by norm_num)
    (by push_cast; norm_num) (by norm_num) (by norm_num)

/-- Helper: fl64 fixes −20000. -/
theorem fl64_neg20000 : fl64 (-20000) = -20000 :=
  fl64_fix (-20000) (-5497558138880000) 14 (-38) (by norm_num) (by norm_num)
    (by push_cast; norm_num) (by norm_num) (by norm_num)

/-- Helper: the delta of `bigDoc` is +1e16 (no f64 rounding involved). -/
theorem docChange_bigDoc : docChange bigDoc = 10000000000000000 := by
  simp +decide [docChange, changeFor, identify_file_type,
    identify_file_type.restOfChecks, process_journal_entry,
    journalCreditsLoop, bigDoc, Value.get, Value.get.lookupField,
    Value.as_array, Value.as_str, Value.as_f64]

/-- Helper: the delta of `oneDoc` is +1. -/
theorem docChange_oneDoc : docChange oneDoc = 1 := by
  simp +decide [docChange, changeFor, identify_file_type,
    identify_file_type.restOfChecks, process_journal_entry,
    journalCreditsLoop, oneDoc, Value.get, Value.get.lookupField,
    Value.as_array, Value.as_str, Value.as_f64]

/-- Helper: the delta of `negDoc` is −1e16 (an exact f64 negation). -/
theorem docChange_negDoc : docChange negDoc = -10000000000000000 := by
  simp +decide [docChange, changeFor, identify_file_type,
    identify_file_type.restOfChecks, process_payroll, negDoc,
    Value.get, Value.get.lookupField, Value.as_array, Value.as_str,
    Value.as_f64]

/-- Helper: the f64 fold of [+1e16, +1, −1e16] gives 0 (the +1 is
absorbed: 1e16 + 1 rounds back to 1e16). -/
theorem aggregateF64_cex1 : (aggregateF64 [bigDoc, oneDoc, negDoc]).1 = 0 := by
  show addF64 (addF64 (addF64 0 (docChange bigDoc)) (docChange oneDoc))
    (docChange negDoc) = 0
  rw [docChange_bigDoc, docChange_oneDoc, docChange_negDoc]
  unfold addF64
  rw [show (0 : ℚ) + 10000000000000000 = 10000000000000000 by ring,
    fl64_1e16, fl64_1e16_add_1,
    show (10000000000000000 : ℚ) + -10000000000000000 = 0 by ring,
    fl64_zero]

/-- Helper: the f64 fold of the permuted batch [+1e16, −1e16, +1] gives 1
(cancellation happens first, so the +1 survives). -/
theorem aggregateF64_cex2 : (aggregateF64 [bigDoc, negDoc, oneDoc]).1 = 1 := by
  show addF64 (addF64 (addF64 0 (docChange bigDoc)) (docChange negDoc))
    (docChange oneDoc) = 1
  rw [docChange_bigDoc, docChange_oneDoc, docChange_negDoc]
  unfold addF64
  rw [show (0 : ℚ) + 10000000000000000 = 10000000000000000 by ring,
    fl64_1e16,
    show (10000000000000000 : ℚ) + -10000000000000000 = 0 by ring,
    fl64_zero, show (0 : ℚ) + 1 = 1 by ring, fl64_one]

/-- C6 counterexample: the claim's universal permutation-invariance of
the cumulative KPI is false of the program's f64 left fold. The batches
[+1e16, +1, −1e16] and [+1e16, −1e16, +1] (JournalEntry and
PayrollExpense documents whose deltas are all exactly representable) are
permutations of one another, yet under binary64 addition one folds to 0
and the other to 1. -/
theorem C6_f64_order_counterexample :
    [bigDoc, oneDoc, negDoc].Perm [bigDoc, negDoc, oneDoc] ∧
    (aggregateF64 [bigDoc, oneDoc, negDoc]).1 = 0 ∧
    (aggregateF64 [bigDoc, negDoc, oneDoc]).1 = 1 ∧
    (aggregateF64 [bigDoc, oneDoc, negDoc]).1
      ≠ (aggregateF64 [bigDoc, negDoc, oneDoc]).1 := by
  refine ⟨List.Perm.cons _ (List.Perm.swap _ _ _), aggregateF64_cex1,
    aggregateF64_cex2, ?_⟩
  rw [aggregateF64_cex1, aggregateF64_cex2]
  norm_num

/-- C6 amended: the exact sum of per-document deltas is
permutation-invariant, and on the quoted two-document batch — where
every binary64 addition is exact — the f64 fold yields kpi 30000 in both
orders while the order-dependent `file_type` is "PayrollExpense" versus
"JournalEntry"; but permutation-invariance of the f64 cumulative KPI
does not hold for arbitrary batches (see the counterexample). -/
theorem C6_order_dependence_amended :
    (∀ documents documentsR : List Value, documents.Perm documentsR →
      (documents.map docChange).sum = (documentsR.map docChange).sum) ∧
    (aggregateF64 [journalDoc, payrollDoc]).1 = 30000 ∧
    (aggregateF64 [payrollDoc, journalDoc]).1 = 30000 ∧
    (aggregateF64 [journalDoc, payrollDoc]).2 = "PayrollExpense" ∧
    (aggregateF64 [payrollDoc, journalDoc]).2 = "JournalEntry" := by
  refine ⟨?_, ?_, ?_, by decide, by decide⟩
  · intro documents documentsR hperm
    exact (hperm.map docChange).sum_eq
  · show addF64 (addF64 0 (docChange journalDoc)) (docChange payrollDoc)
      = 30000
    rw [docChange_journalDoc, docChange_payrollDoc]
    unfold addF64
    rw [show (0 : ℚ) + 50000 = 50000 by ring, fl64_50000,
      show (50000 : ℚ) + -20000 = 30000 by ring, fl64_30000]
  · show addF64 (addF64 0 (docChange payrollDoc)) (docChange journalDoc)
      = 30000
    rw [docChange_journalDoc, docChange_payrollDoc]
    unfold addF64
    rw [show (0 : ℚ) + -20000 = -20000 by ring, fl64_neg20000,
      show (-20000 : ℚ) + 50000 = 30000 by ring, fl64_30000]

/-- Witness for the amended C6 at the concrete two-document batch. -/
theorem C6_order_dependence_amended_witness :
    ([journalDoc, payrollDoc].map docChange).sum
      = ([payrollDoc, journalDoc].map docChange).sum :=
  C6_order_dependence_amended.1 [journalDoc, payrollDoc]
    [payrollDoc, journalDoc] (List.Perm.swap _ _ _)

/-- C9: both entry points fail exactly when parsing fails (the parse
failure, a panic in the source, is modelled as `none`), the failure
happens before any computation, and every batch that parses is processed
in full — per-document field problems only yield defaults, never a
failure. -/
theorem C9_parse_failure (parse : String → Option (List Value))
    (parseOne : String → Option Value) (env : TEEEnv) (s t : String)
    (kp : Keypair) (current_kpi : ℚ) :
    (calculate_kpi_with_attestation parse env s kp = none ↔ parse s = none) ∧
    (calculate_kpi parseOne t current_kpi = none ↔ parseOne t = none) ∧
    (∀ documents, parse s = some documents →
      calculate_kpi_with_attestation parse env s kp
        = some (resultOf env s kp documents)) ∧
    (∀ data, parseOne t = some data →
      calculate_kpi parseOne t current_kpi
        = some { kpi := current_kpi + docChange data
                 change := docChange data
                 file_type := identify_file_type data }) := by
  refine ⟨?_, ?_, ?_, ?_⟩
  · cases hp : parse s with
    | none => simp [calculate_kpi_with_attestation, hp]
    | some documents => simp [calc_att_eq parse env s kp documents hp]
  · cases hp : parseOne t with
    | none => simp [calculate_kpi, hp]
    | some data => simp [calculate_kpi, hp]
  · intro documents hp
    exact calc_att_eq parse env s kp documents hp
  · intro data hp
    unfold calculate_kpi
    rw [hp]
    rfl

/-- Witness for C9 on a concrete parser and batch. -/
theorem C9_parse_failure_witness :
    calculate_kpi_with_attestation (fun _ => some [journalDoc]) testEnv "x"
      testKeypair = some (resultOf testEnv "x" testKeypair [journalDoc]) :=
  (C9_parse_failure (fun _ => some [journalDoc]) (fun _ => some journalDoc)
    testEnv "x" "y" testKeypair 0).2.2.1 [journalDoc] rfl

/-- C10: a batch whose cumulative KPI is negative still succeeds, and the
saturating `as u64` cast clamps the rounded negative value to 0 in the
attestation, rather than wrapping or aborting. -/
theorem C10_negative_kpi_saturates (parse : String → Option (List Value))
    (env : TEEEnv) (s : String) (kp : Keypair) (documents : List Value)
    (hp : parse s = some documents)
    (hneg : (documents.map docChange).sum < 0) :
    ∃ r, calculate_kpi_with_attestation parse env s kp = some r ∧
      r.attestation.kpi_value = 0 := by
  refine ⟨resultOf env s kp documents, calc_att_eq _ _ _ _ _ hp, ?_⟩
  show rustCastU64 (rustRound ((aggregate documents).1 * 1000)) = 0
  rw [aggregate_eq]
  refine rustCastU64_of_nonpos _ (rustRound_nonpos _ ?_)
  have : (0 : ℚ) < 1000 := by norm_num
  exact mul_neg_of_neg_of_pos hneg this

/-- Witness for C10 on a payroll-only batch with cumulative KPI −20000. -/
theorem C10_negative_kpi_saturates_witness :
    ∃ r, calculate_kpi_with_attestation (fun _ => some [payrollDoc]) testEnv
        "x" testKeypair = some r ∧ r.attestation.kpi_value = 0 :=
  C10_negative_kpi_saturates (fun _ => some [payrollDoc]) testEnv "x"
    testKeypair [payrollDoc] rfl
    (by simp [docChange_payrollDoc])

/-- Witness for C2 on a concrete one-document batch. -/
theorem C2_attestation_signature_witness :
    ∃ message : List ℕ,
      message = u64ToLeBytes (resultOf testEnv "x" testKeypair
            [journalDoc]).attestation.kpi_value
          ++ (resultOf testEnv "x" testKeypair
            [journalDoc]).attestation.computation_hash
          ++ u64ToLeBytes (resultOf testEnv "x" testKeypair
            [journalDoc]).attestation.timestamp ∧
      message.length = 48 ∧
      SignatureValidUnder testKeypair
        (resultOf testEnv "x" testKeypair [journalDoc]).attestation.tee_public_key
        message
        (resultOf testEnv "x" testKeypair [journalDoc]).attestation.signature :=
  C2_attestation_signature (fun _ => some [journalDoc]) testEnv "x"
    testKeypair [journalDoc] _ rfl (calc_att_eq _ _ _ _ _ rfl)

/-- Witness for C3 on a concrete one-document batch. -/
theorem C3_quantization_witness :
    (resultOf testEnv "x" testKeypair [journalDoc]).attestation.kpi_value
      = rustCastU64 (rustRound (([journalDoc].map docChange).sum * 1000)) ∧
    rustCastU64 (rustRound ((30000 : ℚ) * 1000)) = 30000000 ∧
    rustCastU64 (rustRound ((12345675 / 10000 : ℚ) * 1000)) = 1234568 :=
  C3_quantization (fun _ => some [journalDoc]) testEnv "x" testKeypair
    [journalDoc] _ rfl (calc_att_eq _ _ _ _ _ rfl)

/-- Witness for C5 on a concrete two-document batch. -/
theorem C5_cumulative_result_witness :
    (resultOf testEnv "x" testKeypair
        [journalDoc, payrollDoc]).kpi_result.kpi
      = ([journalDoc, payrollDoc].map docChange).sum ∧
    (resultOf testEnv "x" testKeypair
        [journalDoc, payrollDoc]).kpi_result.change
      = ([journalDoc, payrollDoc].map docChange).sum ∧
    (resultOf testEnv "x" testKeypair
        [journalDoc, payrollDoc]).kpi_result.file_type
      = ([journalDoc, payrollDoc].map identify_file_type).getLastD "Unknown" :=
  C5_cumulative_result (fun _ => some [journalDoc, payrollDoc]) testEnv "x"
    testKeypair [journalDoc, payrollDoc] _ rfl (calc_att_eq _ _ _ _ _ rfl)

end Nautilus
